import Mathlib

/-!
Shallow embedding of `src/lib/websocket/WebSocketClient.ts` (class `WebSocketClient`):
the connection state machine, reconnection policy with exponential backoff,
heartbeat monitor, outbound message queue and event dispatch.

Modelling conventions:
- The mutable fields of the class become the fields of `ClientState`.
- Methods become functions `ClientState → ClientState × List Event`, where the
  event list records, in order, the externally observable effects of the call
  (status-change dispatches, wire sends, error dispatches, message dispatches).
- The transport socket is a `Socket` value with a `readyState`; `WebSocket.OPEN`
  is modelled by the constructor `ReadyState.opened` (`open` is reserved in Lean).
- Whether `ws.send` throws for a given message is an oracle `ok : ClientMessage → Bool`
  passed to the functions that send.
- Timers are modelled by flags / option fields: armed one-shot timers fire through
  explicit `...Fire` functions that are guarded on the timer being armed.
- JS numbers used for delays are modelled by `ℚ`; counters and sizes by `ℕ`.
-/

namespace ServerGem

/-- Outbound wire message (`ClientMessage` union in the source): tagged by `type`,
with `init` carrying `session_id` and metadata and `ping` carrying a timestamp. -/
inductive ClientMessage
  | init (session_id : String) (metadata : String)
  | ping (timestamp : String)
  | app (ty : String) (payload : String)
  deriving DecidableEq, Repr

/-- The `type` discriminator string of an outbound message. -/
def ClientMessage.msgType : ClientMessage → String
  | ClientMessage.init _ _ => "init"
  | ClientMessage.ping _ => "ping"
  | ClientMessage.app t _ => t

/-- Inbound wire message (`ServerMessage` in the source): a `type` discriminator
plus a payload that the client forwards opaquely. -/
structure ServerMessage where
  type : String
  payload : String
  deriving DecidableEq, Repr

/-- Transport readyState (`WebSocket.CONNECTING/OPEN/CLOSING/CLOSED`).
`opened` stands for `OPEN`. -/
inductive ReadyState
  | connecting
  | opened
  | closing
  | closed
  deriving DecidableEq, Repr

/-- One underlying transport socket, identified so that distinct sockets created
by successive `connect()` calls can be told apart. -/
structure Socket where
  id : ℕ
  readyState : ReadyState
  deriving DecidableEq, Repr

/-- A socket is live while it has not reached the CLOSED state. -/
def Socket.isLive (t : Socket) : Bool :=
  match t.readyState with
  | ReadyState.closed => false
  | _ => true

/-- `ConnectionState` union of the source. -/
inductive ConnState
  | idle
  | connecting
  | connected
  | reconnecting
  | disconnected
  | error
  deriving DecidableEq, Repr

/-- `ConnectionStatus` record of the source. -/
structure ConnectionStatus where
  state : ConnState
  error : Option String
  reconnectAttempt : Option ℕ
  lastConnected : Option ℕ
  deriving DecidableEq, Repr

/-- `reconnect` section of `WebSocketConfig`. -/
structure ReconnectConfig where
  enabled : Bool
  maxAttempts : ℕ
  initialDelay : ℚ
  maxDelay : ℚ
  backoffMultiplier : ℚ
  deriving DecidableEq, Repr

/-- `heartbeat` section of `WebSocketConfig`. -/
structure HeartbeatConfig where
  enabled : Bool
  interval : ℚ
  timeout : ℚ
  deriving DecidableEq, Repr

/-- `messageQueue` section of `WebSocketConfig`. -/
structure MessageQueueConfig where
  enabled : Bool
  maxSize : ℕ
  deriving DecidableEq, Repr

/-- `WebSocketConfig` of the source. -/
structure WebSocketConfig where
  url : String
  reconnect : ReconnectConfig
  heartbeat : HeartbeatConfig
  messageQueue : MessageQueueConfig
  deriving DecidableEq, Repr

/-- Observable effects of the client, in program order: `statusChange` is a
dispatch to the connection-change handlers, `sent` a successful `ws.send`,
`errorEvent` a dispatch to the error handlers, `dispatched` a fan-out of an
inbound message to the message handlers, `heartbeatStarted` marks the heartbeat
interval being armed. -/
inductive Event
  | statusChange (status : ConnectionStatus)
  | sent (m : ClientMessage)
  | errorEvent (msg : String)
  | dispatched (m : ServerMessage)
  | heartbeatStarted
  deriving DecidableEq, Repr

/-- The mutable fields of class `WebSocketClient`.  `orphans` records sockets
whose reference was overwritten by `connect()` without being closed (in JS the
object keeps existing with its listeners attached); `connectTimer` models the
10s connection-attempt timeout armed inside `connect()`. -/
structure ClientState where
  ws : Option Socket
  orphans : List Socket
  sessionId : String
  config : WebSocketConfig
  connectionStatus : ConnectionStatus
  reconnectAttempts : ℕ
  reconnectTimer : Option ℚ
  connectTimer : Bool
  isIntentionalClose : Bool
  heartbeatTimer : Bool
  heartbeatTimeoutTimer : Bool
  messageQueue : List ClientMessage
  deriving DecidableEq, Repr

/-- `this.ws && this.ws.readyState === WebSocket.OPEN`. -/
def wsOpen (s : ClientState) : Bool :=
  match s.ws with
  | some t =>
    match t.readyState with
    | ReadyState.opened => true
    | _ => false
  | none => false

/-- Number of sockets created by this client that are not closed: the current
`ws` reference plus any orphaned (overwritten-without-close) sockets. -/
def liveTransports (s : ClientState) : ℕ :=
  (s.orphans.filter Socket.isLive).length +
    (match s.ws with
     | some t => if t.isLive then 1 else 0
     | none => 0)

/-- `updateConnectionStatus(state, error?, reconnectAttempt?)`: replaces the
status wholesale (carrying `lastConnected` forward unless entering `connected`)
and dispatches it to every connection-change handler. -/
def updateConnectionStatus (now : ℕ) (state : ConnState) (err : Option String)
    (attempt : Option ℕ) (s : ClientState) : ClientState × List Event :=
  let status : ConnectionStatus :=
    { state := state
      error := err
      reconnectAttempt := attempt
      lastConnected :=
        if state = ConnState.connected then some now
        else s.connectionStatus.lastConnected }
  ({ s with connectionStatus := status }, [Event.statusChange status])

/-- `queueMessage(message)`: if the queue already holds at least
`messageQueue.maxSize` entries, `shift()` the oldest, then `push` the new one. -/
def queueMessage (m : ClientMessage) (s : ClientState) : ClientState :=
  let q :=
    if s.config.messageQueue.maxSize ≤ s.messageQueue.length then
      s.messageQueue.tail
    else
      s.messageQueue
  { s with messageQueue := q ++ [m] }

/-- `sendMessage(message)`: with no open transport, queue (returning `false`) when
queueing is enabled, otherwise throw; with an open transport, `ws.send` — success
returns `true`, a throwing send is caught, reported as an error event, and
returns `false`.  `Except.error` models the throw across the public boundary. -/
def sendMessage (ok : ClientMessage → Bool) (m : ClientMessage) (s : ClientState) :
    ClientState × List Event × Except String Bool :=
  if wsOpen s = false then
    if s.config.messageQueue.enabled then
      (queueMessage m s, [], Except.ok false)
    else
      (s, [], Except.error "WebSocket not connected and message queue disabled")
  else
    if ok m then
      (s, [Event.sent m], Except.ok true)
    else
      (s, [Event.errorEvent "Send error"], Except.ok false)

/-- `stopHeartbeat()`: clear the interval timer and the outstanding timeout
timer, each guarded on being armed. -/
def stopHeartbeat (s : ClientState) : ClientState :=
  let s1 := if s.heartbeatTimer then { s with heartbeatTimer := false } else s
  if s1.heartbeatTimeoutTimer then { s1 with heartbeatTimeoutTimer := false } else s1

/-- `startHeartbeat()`: stop any previous timers, then arm the interval. -/
def startHeartbeat (s : ClientState) : ClientState × List Event :=
  let s1 := stopHeartbeat s
  ({ s1 with heartbeatTimer := true }, [Event.heartbeatStarted])

/-- `handlePong()`: cancel the heartbeat-timeout timer if it is armed. -/
def handlePong (s : ClientState) : ClientState :=
  if s.heartbeatTimeoutTimer then { s with heartbeatTimeoutTimer := false } else s

/-- Fold step used by `flushMessageQueue`: send one message through
`sendMessage`, accumulating the emitted events. -/
def sendAndCollect (ok : ClientMessage → Bool) (acc : ClientState × List Event)
    (m : ClientMessage) : ClientState × List Event :=
  let r := sendMessage ok m acc.1
  (r.1, acc.2 ++ r.2.1)

/-- `flushMessageQueue()`: nothing to do on an empty queue; otherwise snapshot
the queue, clear the field, and send every snapshotted message in order through
`sendMessage` (individual failures do not stop the iteration). -/
def flushMessageQueue (ok : ClientMessage → Bool) (s : ClientState) :
    ClientState × List Event :=
  if s.messageQueue.isEmpty then (s, [])
  else
    let queue := s.messageQueue
    let s0 := { s with messageQueue := [] }
    queue.foldl (sendAndCollect ok) (s0, [])

/-- `handleMessage(event)`: a parse failure is reported as an error event; a
`pong` is consumed by `handlePong` and returns before the handler fan-out;
every other message is dispatched to the message handlers. -/
def handleMessage (parsed : Option ServerMessage) (s : ClientState) :
    ClientState × List Event :=
  match parsed with
  | none => (s, [Event.errorEvent "Failed to parse server message"])
  | some m =>
    if m.type = "pong" then
      (handlePong s, [])
    else
      (s, [Event.dispatched m])

/-- `calculateBackoffDelay()`:
`Math.min(initialDelay * backoffMultiplier ^ (reconnectAttempts - 1), maxDelay)`
(called only with `reconnectAttempts ≥ 1`; the subtraction is truncated). -/
def calculateBackoffDelay (s : ClientState) : ℚ :=
  let r := s.config.reconnect
  min (r.initialDelay * r.backoffMultiplier ^ (s.reconnectAttempts - 1)) r.maxDelay

/-- `handleReconnect()`: no-op when reconnection is disabled or the closure was
intentional; with the attempt counter already at the cap, transition to `error`
with the fixed message and arm nothing; otherwise increment the counter, arm the
one-shot reconnect timer with the backoff delay, and report `reconnecting`
carrying the attempt number. -/
def handleReconnect (now : ℕ) (s : ClientState) : ClientState × List Event :=
  if s.config.reconnect.enabled = false ∨ s.isIntentionalClose = true then
    (s, [])
  else if s.config.reconnect.maxAttempts ≤ s.reconnectAttempts then
    updateConnectionStatus now ConnState.error
      (some "Max reconnection attempts reached") none s
  else
    let s1 := { s with reconnectAttempts := s.reconnectAttempts + 1 }
    let s2 := { s1 with reconnectTimer := some (calculateBackoffDelay s1) }
    updateConnectionStatus now ConnState.reconnecting none
      (some s2.reconnectAttempts) s2

/-- `handleOpen()`: reset the attempt counter, report `connected`, send the
`init` message, start the heartbeat when enabled, flush the queue; the
once-listener added in `connect()` then clears the connection-attempt timeout. -/
def handleOpen (ok : ClientMessage → Bool) (now : ℕ) (meta : String)
    (s : ClientState) : ClientState × List Event :=
  let s1 := { s with reconnectAttempts := 0 }
  let p2 := updateConnectionStatus now ConnState.connected none none s1
  let p3 := sendMessage ok (ClientMessage.init p2.1.sessionId meta) p2.1
  let p4 :=
    if p3.1.config.heartbeat.enabled then startHeartbeat p3.1
    else (p3.1, ([] : List Event))
  let p5 := flushMessageQueue ok p4.1
  ({ p5.1 with connectTimer := false }, p2.2 ++ p3.2.1 ++ p4.2 ++ p5.2)

/-- `handleClose(event)`: the transport has reached CLOSED; always stop the
heartbeat first, then either run the reconnection path (unintentional) or
report `disconnected` (intentional). -/
def handleClose (now : ℕ) (s : ClientState) : ClientState × List Event :=
  let s0 :=
    { s with ws := s.ws.map (fun t => { t with readyState := ReadyState.closed }) }
  let s1 := stopHeartbeat s0
  if s1.isIntentionalClose = false then
    let p2 := updateConnectionStatus now ConnState.reconnecting none none s1
    let p3 := handleReconnect now p2.1
    (p3.1, p2.2 ++ p3.2)
  else
    updateConnectionStatus now ConnState.disconnected none none s1

/-- `connect()`: no-op when `ws.readyState === OPEN`; otherwise clear the
intentional-close flag, report `connecting`, and either fail to construct the
transport (`openThrows`: report `error`, dispatch the error, run the
reconnection path) or assign `this.ws` to a fresh socket — any previous socket
reference is overwritten without being closed — and arm the attempt timeout. -/
def connect (now : ℕ) (newId : ℕ) (openThrows : Bool) (s : ClientState) :
    ClientState × List Event :=
  if wsOpen s = true then (s, [])
  else
    let s1 := { s with isIntentionalClose := false }
    let p2 := updateConnectionStatus now ConnState.connecting none none s1
    if openThrows then
      let p3 := updateConnectionStatus now ConnState.error
        (some "Connection error") none p2.1
      let p4 := handleReconnect now p3.1
      (p4.1, p2.2 ++ p3.2 ++ [Event.errorEvent "Connection error"] ++ p4.2)
    else
      let olds :=
        match p2.1.ws with
        | some t => t :: p2.1.orphans
        | none => p2.1.orphans
      ({ p2.1 with
          ws := some (Socket.mk newId ReadyState.connecting)
          orphans := olds
          connectTimer := true }, p2.2)

/-- `ws.close()` as seen by the caller: a connecting or open socket moves to
CLOSING (the CLOSED transition and the close event arrive later). -/
def closeWs (s : ClientState) : ClientState :=
  match s.ws with
  | some t =>
    match t.readyState with
    | ReadyState.connecting =>
      { s with ws := some { t with readyState := ReadyState.closing } }
    | ReadyState.opened =>
      { s with ws := some { t with readyState := ReadyState.closing } }
    | _ => s
  | none => s

/-- The pending reconnect one-shot firing: only possible while armed; consumes
the timer and calls `connect()`. -/
def reconnectTimerFire (now : ℕ) (newId : ℕ) (openThrows : Bool)
    (s : ClientState) : ClientState × List Event :=
  if s.reconnectTimer.isSome then
    connect now newId openThrows { s with reconnectTimer := none }
  else (s, [])

/-- The 10s connection-attempt timeout firing: only possible while armed;
its body acts only when the status is still `connecting`
(`ws?.close()` then `handleReconnect()`). -/
def connectTimeoutFire (now : ℕ) (s : ClientState) : ClientState × List Event :=
  if s.connectTimer then
    if s.connectionStatus.state = ConnState.connecting then
      handleReconnect now (closeWs { s with connectTimer := false })
    else
      ({ s with connectTimer := false }, [])
  else (s, [])

/-- One tick of the heartbeat interval: only while armed; if the transport is
open, send a `ping` and arm the heartbeat-timeout timer. -/
def heartbeatTick (ok : ClientMessage → Bool) (ts : String) (s : ClientState) :
    ClientState × List Event :=
  if s.heartbeatTimer then
    if wsOpen s = true then
      let r := sendMessage ok (ClientMessage.ping ts) s
      ({ r.1 with heartbeatTimeoutTimer := true }, r.2.1)
    else (s, [])
  else (s, [])

/-- The heartbeat-timeout one-shot firing: only while armed; forces the
transport closed. -/
def heartbeatTimeoutFire (s : ClientState) : ClientState :=
  if s.heartbeatTimeoutTimer then closeWs s else s

/-- The open event of an orphaned socket.  When `connect()` overwrites `this.ws`
without closing the previous socket, that socket keeps existing with the
listeners `setupEventHandlers` attached to it still bound to the client; if it
was still CONNECTING it can later complete its handshake (the runtime marks it
OPEN, modelled here inside `orphans`) and its open listener runs the bound
`handleOpen` against the client's current state — note `handleOpen`'s own sends
consult the CURRENT `this.ws`, not the socket that fired.  The per-connect
once-listener clears only that superseded attempt's timeout, which `handleOpen`
already models. -/
def orphanOpenFire (ok : ClientMessage → Bool) (now : ℕ) (meta : String)
    (tid : ℕ) (s : ClientState) : ClientState × List Event :=
  if s.orphans.any
      (fun t => decide (t.id = tid) && decide (t.readyState = ReadyState.connecting)) then
    handleOpen ok now meta
      { s with orphans :=
          s.orphans.map (fun t =>
            if t.id = tid then { t with readyState := ReadyState.opened } else t) }
  else (s, [])

/-- `cleanup()`: stop the heartbeat, clear the reconnect timer, close and drop
the transport reference. -/
def cleanup (s : ClientState) : ClientState :=
  let s1 := stopHeartbeat s
  let s2 :=
    if s1.reconnectTimer.isSome then { s1 with reconnectTimer := none } else s1
  match s2.ws with
  | some _ => { s2 with ws := none }
  | none => s2

/-- `disconnect()`: mark the closure intentional, release all resources, report
`disconnected`. -/
def disconnect (now : ℕ) (s : ClientState) : ClientState × List Event :=
  let s1 := { s with isIntentionalClose := true }
  let s2 := cleanup s1
  updateConnectionStatus now ConnState.disconnected none none s2

/-- `destroy()`: like `disconnect` but also clears the queue (and the handler
registries, which are not part of the state). -/
def destroy (s : ClientState) : ClientState :=
  let s1 := { s with isIntentionalClose := true }
  let s2 := cleanup s1
  { s2 with messageQueue := [] }

/-- A sequence of `queueMessage` calls, oldest first. -/
def enqueueAll (ms : List ClientMessage) (s : ClientState) : ClientState :=
  ms.foldl (fun acc m => queueMessage m acc) s

/-- A sequence of `sendMessage` calls, oldest first (events and results
discarded; only the state evolution matters). -/
def offlineSends (ok : ClientMessage → Bool) (ms : List ClientMessage)
    (s : ClientState) : ClientState :=
  ms.foldl (fun acc m => (sendMessage ok m acc).1) s

/-- The single event `sendMessage` emits for a message on an open transport. -/
def sendOutcome (ok : ClientMessage → Bool) (m : ClientMessage) : Event :=
  if ok m then Event.sent m else Event.errorEvent "Send error"

/-! ### Concrete fixtures for witnesses and counterexamples -/

/-- Send oracle where every transmit succeeds. -/
def okAll : ClientMessage → Bool := fun _ => true

/-- Send oracle where every transmit throws. -/
def okNone : ClientMessage → Bool := fun _ => false

def msgA : ClientMessage := ClientMessage.app "message" "A"

def msgB : ClientMessage := ClientMessage.app "message" "B"

def msgC : ClientMessage := ClientMessage.app "message" "C"

def rcStd : ReconnectConfig :=
  { enabled := true, maxAttempts := 5, initialDelay := 1000, maxDelay := 5000,
    backoffMultiplier := 2 }

def hbStd : HeartbeatConfig :=
  { enabled := true, interval := 30000, timeout := 5000 }

/-- Configuration with queueing enabled at capacity `n`. -/
def cfgQ (n : ℕ) : WebSocketConfig :=
  { url := "wss://api.example/ws", reconnect := rcStd, heartbeat := hbStd,
    messageQueue := { enabled := true, maxSize := n } }

/-- A freshly constructed client over the given configuration. -/
def baseState (cfg : WebSocketConfig) : ClientState :=
  { ws := none
    orphans := []
    sessionId := "sess-1"
    config := cfg
    connectionStatus :=
      { state := ConnState.idle, error := none, reconnectAttempt := none,
        lastConnected := none }
    reconnectAttempts := 0
    reconnectTimer := none
    connectTimer := false
    isIntentionalClose := false
    heartbeatTimer := false
    heartbeatTimeoutTimer := false
    messageQueue := [] }

/-- A disconnected client (no transport) with queue capacity `n`. -/
def discState (n : ℕ) : ClientState := baseState (cfgQ n)

/-- A connected client (open transport) with queue capacity `n`. -/
def openState (n : ℕ) : ClientState :=
  { baseState (cfgQ n) with
      ws := some (Socket.mk 0 ReadyState.opened)
      connectionStatus :=
        { state := ConnState.connected, error := none, reconnectAttempt := none,
          lastConnected := some 0 } }

/-- The spec's backoff scenario configuration:
initialDelay 1000, maxDelay 5000, multiplier 2, maxAttempts 4. -/
def cfgBack : WebSocketConfig :=
  { url := "wss://api.example/ws"
    reconnect :=
      { enabled := true, maxAttempts := 4, initialDelay := 1000, maxDelay := 5000,
        backoffMultiplier := 2 }
    heartbeat := hbStd
    messageQueue := { enabled := true, maxSize := 10 } }

def sBack : ClientState := baseState cfgBack

/-- A client whose previous connection attempt is still in progress (socket in
CONNECTING state). -/
def sC9 : ClientState :=
  { discState 5 with
      ws := some (Socket.mk 0 ReadyState.connecting)
      connectionStatus :=
        { state := ConnState.connecting, error := none, reconnectAttempt := none,
          lastConnected := none }
      connectTimer := true }

/-! ### Helper lemmas -/

theorem queueMessage_config (m : ClientMessage) (s : ClientState) :
    (queueMessage m s).config = s.config := rfl

theorem queueMessage_ws (m : ClientMessage) (s : ClientState) :
    (queueMessage m s).ws = s.ws := rfl

theorem wsOpen_queueMessage (m : ClientMessage) (s : ClientState) :
    wsOpen (queueMessage m s) = wsOpen s := rfl

theorem tail_of_length_le_one {α : Type} (q : List α) (h : q.length ≤ 1) :
    q.tail = [] := by
  cases q with
  | nil => rfl
  | cons a t =>
    simp only [List.length_cons, Nat.add_le_add_iff_right, Nat.le_zero,
      List.length_eq_zero] at h
    simpa using h

theorem queueMessage_length_le (m : ClientMessage) (s : ClientState)
    (hmax : 1 ≤ s.config.messageQueue.maxSize)
    (hlen : s.messageQueue.length ≤ s.config.messageQueue.maxSize) :
    (queueMessage m s).messageQueue.length ≤ s.config.messageQueue.maxSize := by
  unfold queueMessage
  by_cases hc : s.config.messageQueue.maxSize ≤ s.messageQueue.length
  · have heq : s.messageQueue.length = s.config.messageQueue.maxSize :=
      Nat.le_antisymm hlen hc
    have hpos : 1 ≤ s.messageQueue.length := heq ▸ hmax
    simp only [hc, if_pos, List.length_append, List.length_tail, List.length_cons,
      List.length_nil]
    omega
  · have hlt : s.messageQueue.length < s.config.messageQueue.maxSize :=
      Nat.lt_of_not_le hc
    simp only [hc, if_neg, not_false_iff, List.length_append, List.length_cons,
      List.length_nil]
    omega

theorem enqueueAll_config (ms : List ClientMessage) (s : ClientState) :
    (enqueueAll ms s).config = s.config := by
  induction ms generalizing s with
  | nil => rfl
  | cons m rest ih =>
    show (enqueueAll rest (queueMessage m s)).config = s.config
    rw [ih, queueMessage_config]

theorem enqueueAll_length_le (ms : List ClientMessage) (s : ClientState)
    (hmax : 1 ≤ s.config.messageQueue.maxSize)
    (hlen : s.messageQueue.length ≤ s.config.messageQueue.maxSize) :
    (enqueueAll ms s).messageQueue.length ≤ s.config.messageQueue.maxSize := by
  induction ms generalizing s with
  | nil => exact hlen
  | cons m rest ih =>
    show (enqueueAll rest (queueMessage m s)).messageQueue.length ≤
      s.config.messageQueue.maxSize
    have h1 := queueMessage_length_le m s hmax hlen
    have := ih (queueMessage m s)
      (by rw [queueMessage_config]; exact hmax)
      (by rw [queueMessage_config]; exact h1)
    rwa [queueMessage_config] at this

theorem sendMessage_offline (ok : ClientMessage → Bool) (m : ClientMessage)
    (s : ClientState) (hw : wsOpen s = false)
    (he : s.config.messageQueue.enabled = true) :
    sendMessage ok m s = (queueMessage m s, [], Except.ok false) := by
  unfold sendMessage
  simp [hw, he]

theorem queueMessage_zero (m : ClientMessage) (s : ClientState)
    (hm : s.config.messageQueue.maxSize = 0)
    (hq : s.messageQueue.length ≤ 1) :
    (queueMessage m s).messageQueue = [m] := by
  unfold queueMessage
  simp [hm, tail_of_length_le_one _ hq]

theorem sendMessage_open (ok : ClientMessage → Bool) (m : ClientMessage)
    (s : ClientState) (hw : wsOpen s = true) :
    sendMessage ok m s = (s, [sendOutcome ok m], Except.ok (ok m)) := by
  unfold sendMessage sendOutcome
  rw [hw]
  by_cases ho : ok m <;> simp [ho]

theorem foldl_sendAndCollect (ok : ClientMessage → Bool) (q : List ClientMessage)
    (s : ClientState) (acc : List Event) (hw : wsOpen s = true) :
    q.foldl (sendAndCollect ok) (s, acc) = (s, acc ++ q.map (sendOutcome ok)) := by
  induction q generalizing acc with
  | nil => simp
  | cons m rest ih =>
    simp only [List.foldl_cons, sendAndCollect, sendMessage_open ok m s hw,
      List.map_cons]
    rw [ih (acc ++ [sendOutcome ok m])]
    simp

theorem update_messageQueue_self (s : ClientState) (h : s.messageQueue = []) :
    ({ s with messageQueue := [] } : ClientState) = s := by
  obtain ⟨ws, orph, sid, cfg, cs, ra, rt, ct, ic, hb, hbt, mq⟩ := s
  simp only at h
  rw [h]

theorem flush_open (ok : ClientMessage → Bool) (s : ClientState)
    (hw : wsOpen s = true) :
    flushMessageQueue ok s =
      ({ s with messageQueue := [] }, s.messageQueue.map (sendOutcome ok)) := by
  unfold flushMessageQueue
  by_cases hq : s.messageQueue.isEmpty
  · rw [List.isEmpty_iff] at hq
    simp [hq, update_messageQueue_self s hq]
  · simp only [hq, Bool.false_eq_true, if_neg, not_false_iff]
    have hw0 : wsOpen { s with messageQueue := [] } = true := hw
    exact foldl_sendAndCollect ok s.messageQueue _ [] hw0

theorem stopHeartbeat_eq (s : ClientState) :
    stopHeartbeat s =
      { s with heartbeatTimer := false, heartbeatTimeoutTimer := false } := by
  obtain ⟨ws, orph, sid, cfg, cs, ra, rt, ct, ic, hb, hbt, mq⟩ := s
  unfold stopHeartbeat
  cases hb <;> cases hbt <;> rfl

theorem cleanup_eq (s : ClientState) :
    cleanup s =
      { s with heartbeatTimer := false, heartbeatTimeoutTimer := false,
               reconnectTimer := none, ws := none } := by
  unfold cleanup
  rw [stopHeartbeat_eq]
  obtain ⟨ws, orph, sid, cfg, cs, ra, rt, ct, ic, hb, hbt, mq⟩ := s
  cases rt <;> cases ws <;> rfl

/-! ### Claim C3 -/

/-- C3 counterexample: with `messageQueue.maxSize = 0` configured, a single
offline `sendMessage` leaves the queue at length 1, strictly exceeding the
configured maximum — so "the queue length never exceeds the configured
`messageQueue.maxSize`" is false as stated for every configuration. -/
theorem c3_counterexample :
    (sendMessage okAll msgA (discState 0)).1.messageQueue.length = 1 ∧
    (discState 0).config.messageQueue.maxSize = 0 := by
  decide

/-- C3 (amended): for every configuration with `messageQueue.maxSize ≥ 1`, any
sequence of enqueues starting from a queue within capacity never exceeds the
configured maximum; when an enqueue happens at (or beyond) capacity, the oldest
entry (queue head) is evicted; and with `maxSize = 2`, enqueueing A then B then
C leaves exactly `[B, C]`. -/
theorem c3_queue_bound_amended (s : ClientState) (m : ClientMessage)
    (ms : List ClientMessage)
    (hmax : 1 ≤ s.config.messageQueue.maxSize)
    (hlen : s.messageQueue.length ≤ s.config.messageQueue.maxSize) :
    (enqueueAll ms s).messageQueue.length ≤ s.config.messageQueue.maxSize ∧
    (s.config.messageQueue.maxSize ≤ s.messageQueue.length →
      (queueMessage m s).messageQueue = s.messageQueue.tail ++ [m]) ∧
    (enqueueAll [msgA, msgB, msgC] (discState 2)).messageQueue = [msgB, msgC] := by
  refine ⟨enqueueAll_length_le ms s hmax hlen, ?_, by decide⟩
  intro hfull
  unfold queueMessage
  simp [hfull]

def sQ2 : ClientState := { discState 2 with messageQueue := [msgA, msgB] }

/-- Witness for the amended C3 at a concrete full queue of capacity 2. -/
theorem c3_queue_bound_witness :
    (enqueueAll [msgC] sQ2).messageQueue.length ≤ sQ2.config.messageQueue.maxSize ∧
    (sQ2.config.messageQueue.maxSize ≤ sQ2.messageQueue.length →
      (queueMessage msgC sQ2).messageQueue = sQ2.messageQueue.tail ++ [msgC]) ∧
    (enqueueAll [msgA, msgB, msgC] (discState 2)).messageQueue = [msgB, msgC] :=
  c3_queue_bound_amended sQ2 msgC [msgC] (by decide) (by decide)

/-! ### Claim C10 -/

/-- C10: with `messageQueue.maxSize = 0` and queueing enabled, any positive
number of offline `sendMessage` calls leaves the queue holding exactly the most
recently sent message (eviction removes the head before the append instead of
rejecting the append). -/
theorem c10_zero_capacity (ok : ClientMessage → Bool) (s : ClientState)
    (ms : List ClientMessage) (m : ClientMessage)
    (he : s.config.messageQueue.enabled = true)
    (hm : s.config.messageQueue.maxSize = 0)
    (hw : wsOpen s = false)
    (hq : s.messageQueue.length ≤ 1) :
    (offlineSends ok (ms ++ [m]) s).messageQueue = [m] := by
  induction ms generalizing s with
  | nil =>
    show (offlineSends ok [m] s).messageQueue = [m]
    simp only [offlineSends, List.foldl_cons, List.foldl_nil,
      sendMessage_offline ok m s hw he]
    exact queueMessage_zero m s hm hq
  | cons x rest ih =>
    have hstep : offlineSends ok ((x :: rest) ++ [m]) s =
        offlineSends ok (rest ++ [m]) (queueMessage x s) := by
      simp only [offlineSends, List.cons_append, List.foldl_cons,
        sendMessage_offline ok x s hw he]
    rw [hstep]
    exact ih (queueMessage x s)
      (by rw [queueMessage_config]; exact he)
      (by rw [queueMessage_config]; exact hm)
      (by rw [wsOpen_queueMessage]; exact hw)
      (by rw [queueMessage_zero x s hm hq]; simp)

/-- Witness for C10: two offline sends with capacity 0 leave exactly the last
message. -/
theorem c10_zero_capacity_witness :
    (offlineSends okAll ([msgA] ++ [msgB]) (discState 0)).messageQueue = [msgB] :=
  c10_zero_capacity okAll (discState 0) [msgA] msgB (by decide) (by decide)
    (by decide) (by decide)

/-! ### Claim C4 -/

/-- C4: the backoff delay for attempt `n` equals
`min(maxDelay, initialDelay * backoffMultiplier ^ (n - 1))`; it is monotone
non-decreasing in the attempt number when `backoffMultiplier ≥ 1` (and the
configured delay is non-negative), never exceeds `maxDelay`, and the
1000/5000/×2 scenario yields delays 1000, 2000, 4000, 5000 for attempts 1-4. -/
theorem c4_backoff (s : ClientState) (n : ℕ)
    (hmul : 1 ≤ s.config.reconnect.backoffMultiplier)
    (hinit : 0 ≤ s.config.reconnect.initialDelay) :
    calculateBackoffDelay s =
      min s.config.reconnect.maxDelay
        (s.config.reconnect.initialDelay *
          s.config.reconnect.backoffMultiplier ^ (s.reconnectAttempts - 1)) ∧
    calculateBackoffDelay { s with reconnectAttempts := n } ≤
      calculateBackoffDelay { s with reconnectAttempts := n + 1 } ∧
    calculateBackoffDelay s ≤ s.config.reconnect.maxDelay ∧
    (calculateBackoffDelay { sBack with reconnectAttempts := 1 } = 1000 ∧
     calculateBackoffDelay { sBack with reconnectAttempts := 2 } = 2000 ∧
     calculateBackoffDelay { sBack with reconnectAttempts := 3 } = 4000 ∧
     calculateBackoffDelay { sBack with reconnectAttempts := 4 } = 5000) := by
  refine ⟨?_, ?_, min_le_right _ _,
    by norm_num [calculateBackoffDelay, sBack, cfgBack, baseState],
    by norm_num [calculateBackoffDelay, sBack, cfgBack, baseState],
    by norm_num [calculateBackoffDelay, sBack, cfgBack, baseState],
    by norm_num [calculateBackoffDelay, sBack, cfgBack, baseState]⟩
  · unfold calculateBackoffDelay
    exact min_comm _ _
  · unfold calculateBackoffDelay
    have hpow : s.config.reconnect.backoffMultiplier ^ (n - 1) ≤
        s.config.reconnect.backoffMultiplier ^ (n + 1 - 1) :=
      pow_le_pow_right₀ hmul (by omega)
    exact min_le_min (mul_le_mul_of_nonneg_left hpow hinit) le_rfl

/-- Witness for C4 at the spec's scenario configuration. -/
theorem c4_backoff_witness :
    calculateBackoffDelay sBack =
      min sBack.config.reconnect.maxDelay
        (sBack.config.reconnect.initialDelay *
          sBack.config.reconnect.backoffMultiplier ^ (sBack.reconnectAttempts - 1)) ∧
    calculateBackoffDelay { sBack with reconnectAttempts := 1 } ≤
      calculateBackoffDelay { sBack with reconnectAttempts := 1 + 1 } ∧
    calculateBackoffDelay sBack ≤ sBack.config.reconnect.maxDelay ∧
    (calculateBackoffDelay { sBack with reconnectAttempts := 1 } = 1000 ∧
     calculateBackoffDelay { sBack with reconnectAttempts := 2 } = 2000 ∧
     calculateBackoffDelay { sBack with reconnectAttempts := 3 } = 4000 ∧
     calculateBackoffDelay { sBack with reconnectAttempts := 4 } = 5000) :=
  c4_backoff sBack 1 (by norm_num [sBack, cfgBack, baseState])
    (by norm_num [sBack, cfgBack, baseState])

/-! ### Claim C7 -/

/-- C7: an inbound `pong` is consumed internally — `handleMessage` dispatches
nothing for it and routes through `handlePong`; a `pong` while the
heartbeat-timeout timer is armed clears exactly that timer, and a `pong` with no
armed timer changes nothing. -/
theorem c7_pong (s : ClientState) (m : ServerMessage) (h : m.type = "pong") :
    handleMessage (some m) s = (handlePong s, []) ∧
    (handlePong s).heartbeatTimeoutTimer = false ∧
    (s.heartbeatTimeoutTimer = true →
      handlePong s = { s with heartbeatTimeoutTimer := false }) ∧
    (s.heartbeatTimeoutTimer = false → handlePong s = s) := by
  refine ⟨?_, ?_, ?_, ?_⟩
  · simp [handleMessage, h]
  · unfold handlePong
    by_cases hb : s.heartbeatTimeoutTimer <;> simp [hb]
  · intro hb
    simp [handlePong, hb]
  · intro hb
    simp [handlePong, hb]

def sPong : ClientState := { openState 5 with heartbeatTimeoutTimer := true }

/-- Witness for C7 at a concrete connected state with the timeout timer armed. -/
theorem c7_pong_witness :
    handleMessage (some (ServerMessage.mk "pong" "x")) sPong = (handlePong sPong, []) ∧
    (handlePong sPong).heartbeatTimeoutTimer = false ∧
    (sPong.heartbeatTimeoutTimer = true →
      handlePong sPong = { sPong with heartbeatTimeoutTimer := false }) ∧
    (sPong.heartbeatTimeoutTimer = false → handlePong sPong = sPong) :=
  c7_pong sPong (ServerMessage.mk "pong" "x") rfl

/-! ### Claim C8 -/

/-- C8: flushing with an open transport drains the whole queue in FIFO order
through `sendMessage`, the per-message outcomes appearing in enqueue order (so a
failed transmit of one queued message does not halt the drain of the rest), and
the queue is empty afterwards regardless of the individual outcomes. -/
theorem c8_flush (ok : ClientMessage → Bool) (s : ClientState)
    (hw : wsOpen s = true) :
    (flushMessageQueue ok s).1.messageQueue = [] ∧
    (flushMessageQueue ok s).2 = s.messageQueue.map (sendOutcome ok) := by
  rw [flush_open ok s hw]
  exact ⟨rfl, rfl⟩

def okSkipA : ClientMessage → Bool := fun m => if m = msgA then false else true

def sFlush : ClientState := { openState 5 with messageQueue := [msgA, msgB] }

/-- Witness for C8: a two-message queue where the first transmit fails is still
fully drained, in order. -/
theorem c8_flush_witness :
    (flushMessageQueue okSkipA sFlush).1.messageQueue = [] ∧
    (flushMessageQueue okSkipA sFlush).2 =
      sFlush.messageQueue.map (sendOutcome okSkipA) :=
  c8_flush okSkipA sFlush (by decide)

/-! ### Claim C6 -/

/-- The reachable state the single-transport violation leaves behind:
`connect()` while the previous attempt was still CONNECTING (orphaning the
first socket), then `disconnect()` — which closes only the current transport. -/
def dPost : ClientState := (disconnect 0 (connect 0 1 false sC9).1).1

/-- C6 counterexample: at the reachable post-`disconnect()` state `dPost`, one
live transport remains — `disconnect()` closed only the current socket, not the
orphan left by `connect()`-during-CONNECTING — and when that unclosed orphan's
open event later fires, its still-attached listener runs `handleOpen`:
a connection-status-change event carrying `connected` is dispatched and the
heartbeat interval timer is re-armed after `disconnect()`, refuting "closes any
live transport", "results in a final `disconnected` status" and "no subsequent
timer firing is observable afterward". -/
theorem c6_counterexample :
    liveTransports dPost = 1 ∧
    dPost.connectionStatus.state = ConnState.disconnected ∧
    (orphanOpenFire okAll 0 "ua" 0 dPost).2 =
      [Event.statusChange
        (ConnectionStatus.mk ConnState.connected none none (some 0)),
       Event.heartbeatStarted] ∧
    (orphanOpenFire okAll 0 "ua" 0 dPost).1.connectionStatus.state =
      ConnState.connected ∧
    (orphanOpenFire okAll 0 "ua" 0 dPost).1.heartbeatTimer = true := by
  exact ⟨rfl, rfl, rfl, rfl, rfl⟩

/-- C6 (amended): `disconnect()` from any state cancels the pending reconnect
timer and both heartbeat timers, closes and drops the CURRENT transport, and
ends in `disconnected`; afterwards none of the client's own timers — reconnect
one-shot, heartbeat interval, heartbeat timeout, connection-attempt timeout —
can invoke `connect()`, dispatch an event, or re-arm a timer.  It does not,
however, close orphaned transports left by a `connect()` issued while a
previous attempt was still in progress: the orphan list is untouched, and at
the reachable state `dPost` such a socket's open event still drives the machine
back to `connected` and re-arms the heartbeat after `disconnect()`. -/
theorem c6_disconnect_amended (now now2 nid : ℕ) (f : Bool) (ts : String)
    (ok : ClientMessage → Bool) (s : ClientState) :
    let s1 := (disconnect now s).1
    s1.reconnectTimer = none ∧
    s1.heartbeatTimer = false ∧
    s1.heartbeatTimeoutTimer = false ∧
    s1.ws = none ∧
    s1.connectionStatus.state = ConnState.disconnected ∧
    s1.isIntentionalClose = true ∧
    reconnectTimerFire now2 nid f s1 = (s1, []) ∧
    heartbeatTick ok ts s1 = (s1, []) ∧
    heartbeatTimeoutFire s1 = s1 ∧
    handleReconnect now2 s1 = (s1, []) ∧
    (connectTimeoutFire now2 s1).2 = [] ∧
    (connectTimeoutFire now2 s1).1.connectionStatus = s1.connectionStatus ∧
    (connectTimeoutFire now2 s1).1.reconnectTimer = none ∧
    (connectTimeoutFire now2 s1).1.ws = none ∧
    s1.orphans = s.orphans ∧
    liveTransports dPost = 1 ∧
    (orphanOpenFire okAll 0 "ua" 0 dPost).1.connectionStatus.state =
      ConnState.connected ∧
    (orphanOpenFire okAll 0 "ua" 0 dPost).1.heartbeatTimer = true := by
  have hdis : (disconnect now s).1 =
      { s with isIntentionalClose := true, heartbeatTimer := false,
               heartbeatTimeoutTimer := false, reconnectTimer := none, ws := none,
               connectionStatus :=
                 { state := ConnState.disconnected, error := none,
                   reconnectAttempt := none,
                   lastConnected := s.connectionStatus.lastConnected } } := by
    unfold disconnect
    dsimp only
    rw [cleanup_eq]
    rfl
  refine ⟨?_, ?_, ?_, ?_, ?_, ?_, ?_, ?_, ?_, ?_, ?_, ?_, ?_, ?_, ?_,
      rfl, rfl, rfl⟩ <;>
    rw [hdis] <;>
    by_cases hct : s.connectTimer <;>
    simp [reconnectTimerFire, heartbeatTick, heartbeatTimeoutFire, handleReconnect,
      connectTimeoutFire, hct]

/-! ### Claim C2 -/

/-- C2 counterexample: the result `sendMessage` returns for a message queued
while disconnected is `false` — the very same value it returns for a transmit
failure over an open transport — so the "queued" result is not distinguishable
from the transmit-failure result. -/
theorem c2_counterexample :
    (sendMessage okNone msgA (discState 5)).2.2 =
      (sendMessage okNone msgA (openState 5)).2.2 ∧
    (sendMessage okNone msgA (discState 5)).2.2 = Except.ok false := by
  exact ⟨rfl, rfl⟩

/-- C2 (amended): while disconnected with queueing enabled, `sendMessage`
delegates to the queue and returns `false` — the same falsy value as a transmit
failure, distinguishable only because the failure case additionally dispatches
an error event, not by the returned value; while disconnected with queueing
disabled, `sendMessage` throws across the public boundary. -/
theorem c2_offline_send_amended (ok : ClientMessage → Bool) (m : ClientMessage)
    (s sDis sOp : ClientState)
    (hw : wsOpen s = false) (he : s.config.messageQueue.enabled = true)
    (hwD : wsOpen sDis = false) (heD : sDis.config.messageQueue.enabled = false)
    (hwO : wsOpen sOp = true) (hok : ok m = false) :
    sendMessage ok m s = (queueMessage m s, [], Except.ok false) ∧
    sendMessage ok m sDis =
      (sDis, [], Except.error "WebSocket not connected and message queue disabled") ∧
    sendMessage ok m sOp = (sOp, [Event.errorEvent "Send error"], Except.ok false) := by
  refine ⟨sendMessage_offline ok m s hw he, ?_, ?_⟩
  · unfold sendMessage
    simp [hwD, heD]
  · rw [sendMessage_open ok m sOp hwO, hok]
    unfold sendOutcome
    simp [hok]

def cfgNoQ : WebSocketConfig :=
  { url := "wss://api.example/ws", reconnect := rcStd, heartbeat := hbStd,
    messageQueue := { enabled := false, maxSize := 10 } }

def discNoQ : ClientState := baseState cfgNoQ

/-- Witness for the amended C2 at concrete disconnected / queue-disabled /
transmit-failing states. -/
theorem c2_offline_send_witness :
    sendMessage okNone msgA (discState 5) =
      (queueMessage msgA (discState 5), [], Except.ok false) ∧
    sendMessage okNone msgA discNoQ =
      (discNoQ, [], Except.error "WebSocket not connected and message queue disabled") ∧
    sendMessage okNone msgA (openState 5) =
      (openState 5, [Event.errorEvent "Send error"], Except.ok false) :=
  c2_offline_send_amended okNone msgA (discState 5) discNoQ (openState 5)
    (by decide) (by decide) (by decide) (by decide) (by decide) (by decide)

/-! ### Claim C1 -/

/-- The state of the client at the moment the transport's open event fires:
a socket in OPEN state, status still `connecting`, one queued message. -/
def sAtOpen : ClientState :=
  { discState 5 with
      ws := some (Socket.mk 0 ReadyState.opened)
      connectionStatus :=
        { state := ConnState.connecting, error := none, reconnectAttempt := none,
          lastConnected := none }
      messageQueue := [msgA]
      connectTimer := true }

/-- C1 counterexample: in `handleOpen` the connection-status-change event
carrying state `connected` is the FIRST observable event — it is dispatched
before the `init` send, before the heartbeat start and before the queue flush,
refuting the claimed ordering. -/
theorem c1_counterexample :
    (handleOpen okAll 0 "ua" sAtOpen).2 =
      [Event.statusChange (ConnectionStatus.mk ConnState.connected none none (some 0)),
       Event.sent (ClientMessage.init "sess-1" "ua"),
       Event.heartbeatStarted,
       Event.sent msgA] ∧
    (handleOpen okAll 0 "ua" sAtOpen).2.head? =
      some (Event.statusChange
        (ConnectionStatus.mk ConnState.connected none none (some 0))) := by
  exact ⟨rfl, rfl⟩

/-- C1 (amended): on transport open the client FIRST dispatches the
connection-status change to `connected`, and only then sends the `init`
message, starts the heartbeat (when enabled) and flushes the Outbound Queue, in
that order; the attempt counter is reset and the queue is empty afterwards. -/
theorem c1_open_order_amended (ok : ClientMessage → Bool) (now : ℕ) (meta : String)
    (s : ClientState) (hw : wsOpen s = true)
    (hok : ok (ClientMessage.init s.sessionId meta) = true) :
    (handleOpen ok now meta s).2 =
      Event.statusChange (ConnectionStatus.mk ConnState.connected none none (some now)) ::
        Event.sent (ClientMessage.init s.sessionId meta) ::
        ((if s.config.heartbeat.enabled then [Event.heartbeatStarted] else []) ++
          s.messageQueue.map (sendOutcome ok)) ∧
    (handleOpen ok now meta s).1.messageQueue = [] ∧
    (handleOpen ok now meta s).1.reconnectAttempts = 0 := by
  obtain ⟨ws, orph, sid, cfg, cs, ra, rt, ct, ic, hb, hbt, mq⟩ := s
  cases ws with
  | none => simp [wsOpen] at hw
  | some t =>
    obtain ⟨tid, trs⟩ := t
    cases trs with
    | opened =>
      simp only at hok ⊢
      by_cases hhb : cfg.heartbeat.enabled <;>
        simp [handleOpen, updateConnectionStatus, sendMessage_open, sendOutcome,
          hok, startHeartbeat, stopHeartbeat_eq, flush_open, wsOpen, hhb]
    | connecting => simp [wsOpen] at hw
    | closing => simp [wsOpen] at hw
    | closed => simp [wsOpen] at hw

/-- Witness for the amended C1 at the concrete open-event state. -/
theorem c1_open_order_witness :
    (handleOpen okAll 0 "ua" sAtOpen).2 =
      Event.statusChange (ConnectionStatus.mk ConnState.connected none none (some 0)) ::
        Event.sent (ClientMessage.init sAtOpen.sessionId "ua") ::
        ((if sAtOpen.config.heartbeat.enabled then [Event.heartbeatStarted] else []) ++
          sAtOpen.messageQueue.map (sendOutcome okAll)) ∧
    (handleOpen okAll 0 "ua" sAtOpen).1.messageQueue = [] ∧
    (handleOpen okAll 0 "ua" sAtOpen).1.reconnectAttempts = 0 :=
  c1_open_order_amended okAll 0 "ua" sAtOpen (by decide) (by decide)

/-! ### Claim C5 -/

/-- Scenario configuration with `maxAttempts = 1`. -/
def cfgM1 : WebSocketConfig :=
  { url := "wss://api.example/ws"
    reconnect :=
      { enabled := true, maxAttempts := 1, initialDelay := 1000, maxDelay := 5000,
        backoffMultiplier := 2 }
    heartbeat := hbStd
    messageQueue := { enabled := true, maxSize := 10 } }

/-- A connected client under `cfgM1` that has never retried. -/
def sConnM1 : ClientState :=
  { baseState cfgM1 with
      ws := some (Socket.mk 0 ReadyState.opened)
      connectionStatus :=
        { state := ConnState.connected, error := none, reconnectAttempt := none,
          lastConnected := some 0 } }

/-- C5 counterexample: with `maxAttempts = 1`, after exactly one (the
`maxAttempts`-th) consecutive unintentional closure the machine is in
`reconnecting` with a reconnect timer armed — not in `error` with no timers, as
the claim states; `error` is only reached on the following closure. -/
theorem c5_counterexample :
    (handleClose 0 sConnM1).1.connectionStatus.state = ConnState.reconnecting ∧
    (handleClose 0 sConnM1).1.reconnectTimer.isSome = true ∧
    sConnM1.config.reconnect.maxAttempts = 1 := by
  exact ⟨rfl, rfl, rfl⟩

/-- C5 (amended): when an unintentional closure is handled with the attempt
counter already at `maxAttempts` (i.e. on the `maxAttempts + 1`-th consecutive
closure, the armed timers all having fired), the machine transitions to `error`
with the fixed message "Max reconnection attempts reached", arms no further
reconnect timer, and no automatic `connect()` can fire afterwards. -/
theorem c5_max_attempts_amended (now nid : ℕ) (f : Bool) (s : ClientState)
    (hen : s.config.reconnect.enabled = true)
    (hic : s.isIntentionalClose = false)
    (hmax : s.config.reconnect.maxAttempts ≤ s.reconnectAttempts)
    (ht : s.reconnectTimer = none) :
    (handleClose now s).1.connectionStatus.state = ConnState.error ∧
    (handleClose now s).1.connectionStatus.error =
      some "Max reconnection attempts reached" ∧
    (handleClose now s).1.reconnectTimer = none ∧
    reconnectTimerFire now nid f (handleClose now s).1 =
      ((handleClose now s).1, []) := by
  have hc : (handleClose now s).1 =
      { s with ws := s.ws.map (fun t => { t with readyState := ReadyState.closed })
               heartbeatTimer := false
               heartbeatTimeoutTimer := false
               connectionStatus :=
                 { state := ConnState.error,
                   error := some "Max reconnection attempts reached",
                   reconnectAttempt := none,
                   lastConnected := s.connectionStatus.lastConnected } } := by
    unfold handleClose
    dsimp only
    rw [stopHeartbeat_eq]
    simp [updateConnectionStatus, handleReconnect, hen, hic, hmax]
  refine ⟨by rw [hc], by rw [hc], by rw [hc]; exact ht, ?_⟩
  rw [hc]
  simp [reconnectTimerFire, ht]

/-- A client under `cfgM1` whose single allowed reconnection attempt has been
consumed (its timer fired) and whose transport has just failed again. -/
def sExh : ClientState :=
  { baseState cfgM1 with
      ws := some (Socket.mk 1 ReadyState.opened)
      connectionStatus :=
        { state := ConnState.connecting, error := none, reconnectAttempt := some 1,
          lastConnected := none }
      reconnectAttempts := 1 }

/-- Witness for the amended C5: the closure after the exhausted attempt reaches
`error` with the fixed message and arms nothing. -/
theorem c5_max_attempts_witness :
    (handleClose 0 sExh).1.connectionStatus.state = ConnState.error ∧
    (handleClose 0 sExh).1.connectionStatus.error =
      some "Max reconnection attempts reached" ∧
    (handleClose 0 sExh).1.reconnectTimer = none ∧
    reconnectTimerFire 0 7 false (handleClose 0 sExh).1 =
      ((handleClose 0 sExh).1, []) :=
  c5_max_attempts_amended 0 7 false sExh rfl rfl (by decide) rfl

/-! ### Claim C9 -/

/-- C9 counterexample: calling `connect()` while a previous attempt is still in
progress (readyState CONNECTING, so not OPEN) creates a second transport
without closing the first: afterwards two live transports exist. -/
theorem c9_counterexample :
    liveTransports sC9 = 1 ∧
    liveTransports (connect 0 1 false sC9).1 = 2 := by
  exact ⟨rfl, rfl⟩

/-- C9 (amended): `connect()` is a no-op only when the current transport's
readyState is OPEN; invoked while a previous attempt is still CONNECTING it
overwrites the reference with a fresh transport without closing the old one, so
the number of live transports grows by one (two live transports exist). -/
theorem c9_single_transport_amended (nowA nidA : ℕ) (fA : Bool) (sA : ClientState)
    (hwA : wsOpen sA = true)
    (nowB nidB : ℕ) (sB : ClientState) (t : Socket)
    (hwsB : sB.ws = some t) (htB : t.readyState = ReadyState.connecting) :
    connect nowA nidA fA sA = (sA, []) ∧
    liveTransports (connect nowB nidB false sB).1 = liveTransports sB + 1 := by
  have hlive : Socket.isLive t = true := by
    unfold Socket.isLive
    rw [htB]
  have hw : wsOpen sB = false := by
    simp [wsOpen, hwsB, htB]
  constructor
  · simp [connect, hwA]
  · simp only [connect, hw, Bool.false_eq_true, if_neg, not_false_iff,
      Bool.false_eq_true, updateConnectionStatus]
    simp [liveTransports, hwsB, List.filter_cons, hlive, htB]
    rfl

/-- Witness for the amended C9: a concrete open state where `connect` is a
no-op, and the concrete mid-attempt state where it duplicates the transport. -/
theorem c9_single_transport_witness :
    connect 0 3 false (openState 5) = (openState 5, []) ∧
    liveTransports (connect 0 1 false sC9).1 = liveTransports sC9 + 1 :=
  c9_single_transport_amended 0 3 false (openState 5) (by decide) 0 1 sC9
    (Socket.mk 0 ReadyState.connecting) rfl rfl

end ServerGem
